import Mathlib

set_option maxRecDepth 10000

/-!
Verification of the Interledger packet validation middleware
(`crates/interledger-service-util/src/validator.rs`).

The development embeds the data model (Prepare / Fulfill / Reject packets,
requests), an executable SHA-256, and the two middleware handlers
(`handle_request` for incoming packets, `send_request` for outgoing packets)
as pure functions.  Time is explicit: the current instant `now` and all
deltas are integers in milliseconds.  The asynchronous downstream handler is
modelled as a state-passing function; for the outgoing side it also reports
the delay (in milliseconds) after which its future resolves, so the race
between the downstream future and the timeout timer is decided by comparing
that delay with the imposed timeout.  A call to the downstream handler is
recorded in a trace list, so "next is not invoked" is the trace being empty.
The panic of `copy_from_slice` on a condition that is not exactly 32 bytes
is modelled by `send_request` returning `Option`, `none` being the panic.
-/

namespace Interledger

/-! ## SHA-256 (executable, bytes are `Nat` < 256, words are `Nat` < 2^32) -/

/-- Truncate to a 32-bit word. -/
def w32 (n : Nat) : Nat := n % 4294967296

/-- Right rotation of a 32-bit word by `n` places. -/
def rotr (n x : Nat) : Nat := ((x >>> n) + (x <<< (32 - n))) % 4294967296

/-- The 64 SHA-256 round constants (decimal). -/
def shaK : List Nat :=
  [1116352408, 1899447441, 3049323471, 3921009573, 961987163,
   1508970993, 2453635748, 2870763221, 3624381080, 310598401,
   607225278, 1426881987, 1925078388, 2162078206, 2614888103,
   3248222580, 3835390401, 4022224774, 264347078, 604807628,
   770255983, 1249150122, 1555081692, 1996064986, 2554220882,
   2821834349, 2952996808, 3210313671, 3336571891, 3584528711,
   113926993, 338241895, 666307205, 773529912, 1294757372,
   1396182291, 1695183700, 1986661051, 2177026350, 2456956037,
   2730485921, 2820302411, 3259730800, 3345764771, 3516065817,
   3600352804, 4094571909, 275423344, 430227734, 506948616,
   659060556, 883997877, 958139571, 1322822218, 1537002063,
   1747873779, 1955562222, 2024104815, 2227730452, 2361852424,
   2428436474, 2756734187, 3204031479, 3329325298]

/-- The SHA-256 initial hash state (decimal). -/
def shaH0 : List Nat :=
  [1779033703, 3144134277, 1013904242, 2773480762,
   1359893119, 2600822924, 528734635, 1541459225]

/-- SHA-256 padding: append `0x80`, zeros up to 56 mod 64, then the bit
length as 8 big-endian bytes. -/
def padMessage (msg : List Nat) : List Nat :=
  let L := msg.length
  let zeros := (119 - L % 64) % 64
  msg ++ [0x80] ++ List.replicate zeros 0
      ++ (List.range 8).map (fun i => ((8 * L) >>> (8 * (7 - i))) % 256)

/-- The 16 big-endian 32-bit words of one 64-byte block. -/
def blockWords (block : List Nat) : List Nat :=
  (List.range 16).map (fun j =>
    block.getD (4 * j) 0 * 16777216 + block.getD (4 * j + 1) 0 * 65536 +
      block.getD (4 * j + 2) 0 * 256 + block.getD (4 * j + 3) 0)

/-- The 64-entry SHA-256 message schedule of one block. -/
def schedule (m : List Nat) : Array Nat :=
  (List.range 64).foldl (fun arr i =>
    if i < 16 then arr.push (m.getD i 0)
    else
      let w15 := arr.getD (i - 15) 0
      let w2 := arr.getD (i - 2) 0
      let s0 := (rotr 7 w15) ^^^ (rotr 18 w15) ^^^ (w15 >>> 3)
      let s1 := (rotr 17 w2) ^^^ (rotr 19 w2) ^^^ (w2 >>> 10)
      arr.push (w32 (arr.getD (i - 16) 0 + s0 + arr.getD (i - 7) 0 + s1))) #[]

/-- One application of the SHA-256 compression function. -/
def compressBlock (hs : List Nat) (block : List Nat) : List Nat :=
  let ws := schedule (blockWords block)
  let st0 := (hs.getD 0 0, hs.getD 1 0, hs.getD 2 0, hs.getD 3 0,
              hs.getD 4 0, hs.getD 5 0, hs.getD 6 0, hs.getD 7 0)
  let res := (List.range 64).foldl (fun st i =>
    let (a, b, c, d, e, f, g, hh) := st
    let s1 := (rotr 6 e) ^^^ (rotr 11 e) ^^^ (rotr 25 e)
    let ch := (e &&& f) ^^^ ((e ^^^ 4294967295) &&& g)
    let t1 := w32 (hh + s1 + ch + shaK.getD i 0 + ws.getD i 0)
    let s0 := (rotr 2 a) ^^^ (rotr 13 a) ^^^ (rotr 22 a)
    let maj := (a &&& b) ^^^ (a &&& c) ^^^ (b &&& c)
    let t2 := w32 (s0 + maj)
    (w32 (t1 + t2), a, b, c, w32 (d + t1), e, f, g)) st0
  let (a, b, c, d, e, f, g, hh) := res
  [w32 (hs.getD 0 0 + a), w32 (hs.getD 1 0 + b), w32 (hs.getD 2 0 + c),
   w32 (hs.getD 3 0 + d), w32 (hs.getD 4 0 + e), w32 (hs.getD 5 0 + f),
   w32 (hs.getD 6 0 + g), w32 (hs.getD 7 0 + hh)]

/-- SHA-256 of a byte list, as the 32 digest bytes. -/
def sha256 (msg : List Nat) : List Nat :=
  let padded := padMessage msg
  let blocks := (List.range (padded.length / 64)).map
    (fun i => (padded.drop (64 * i)).take 64)
  let hFinal := blocks.foldl compressBlock shaH0
  List.flatten (hFinal.map (fun w =>
    [(w >>> 24) % 256, (w >>> 16) % 256, (w >>> 8) % 256, w % 256]))

/-! ## Packet data model (`interledger-packet` collaborator types) -/

/-- The two ILP error codes the validator constructs
(`ErrorCode::R00_TRANSFER_TIMED_OUT`, `ErrorCode::F09_INVALID_PEER_RESPONSE`). -/
inductive ErrorCode
  | R00_TRANSFER_TIMED_OUT
  | F09_INVALID_PEER_RESPONSE
deriving DecidableEq

/-- A Reject packet, as produced by `RejectBuilder`. -/
structure Reject where
  code : ErrorCode
  message : List Nat
  triggered_by : List Nat
  data : List Nat
deriving DecidableEq

/-- A Fulfill packet: a 32-byte preimage plus opaque data. -/
structure Fulfill where
  fulfillment : List Nat
  data : List Nat
deriving DecidableEq

/-- A Prepare packet.  `expires_at` is an absolute UTC instant in
milliseconds, kept as an `Int` so that deltas against `now` are signed,
mirroring `chrono::Duration`. -/
structure Prepare where
  destination : List Nat
  amount : Nat
  expires_at : Int
  execution_condition : List Nat
  data : List Nat
deriving DecidableEq

/-- The outcome of a request: `Ok(Fulfill)` or `Err(Reject)`, as in the
Rust `Future<Item = Fulfill, Error = Reject>`. -/
abbrev IlpResult := Except Reject Fulfill

/-- An incoming request: originating account and the Prepare. -/
structure IncomingRequest (A : Type) where
  fromAccount : A
  prepare : Prepare
deriving DecidableEq

/-- An outgoing request: source account, destination account, and the
Prepare. -/
structure OutgoingRequest (A : Type) where
  fromAccount : A
  toAccount : A
  prepare : Prepare
deriving DecidableEq

/-! ## The validator service -/

/-- The `ValidatorService` struct: a wrapped downstream handler `next` and a
`PhantomData` account-type marker (no runtime content, kept as `Unit`). -/
structure ValidatorService (σ : Type) where
  next : σ
  account_type : Unit
deriving DecidableEq

/-- The `ValidatorService::incoming` constructor. -/
def ValidatorService.incoming (next : σ) : ValidatorService σ := ⟨next, ()⟩

/-- The `ValidatorService::outgoing` constructor. -/
def ValidatorService.outgoing (next : σ) : ValidatorService σ := ⟨next, ()⟩

/-- The behaviour of a downstream incoming handler: from its state and the
request, the result it resolves with and its new state. -/
abbrev IncomingNext (σ A : Type) := σ → IncomingRequest A → IlpResult × σ

/-- The behaviour of a downstream outgoing handler: from its state and the
request, the result it resolves with, the delay in milliseconds after which
its future resolves, and its new state. -/
abbrev OutgoingNext (σ A : Type) := σ → OutgoingRequest A → (IlpResult × Int) × σ

/-- The UTF-8 bytes of the message `b"Fulfillment did not match condition"`. -/
def fulfillmentMismatchMessage : List Nat :=
  ("Fulfillment did not match condition".toList).map Char.toNat

/-- The `IncomingService::handle_request` method of `ValidatorService`
(validator.rs lines 50-70).  Besides the result, the returned triple records
the list of requests passed to `next` and the service after the call. -/
def handle_request (svc : ValidatorService σ) (nextImpl : IncomingNext σ A)
    (now : Int) (request : IncomingRequest A) :
    IlpResult × List (IncomingRequest A) × ValidatorService σ :=
  if request.prepare.expires_at ≥ now then
    ((nextImpl svc.next request).1, [request],
     { svc with next := (nextImpl svc.next request).2 })
  else
    (Except.error ⟨.R00_TRANSFER_TIMED_OUT, [], [], []⟩, [], svc)

/-- The `chrono::Duration::to_std` conversion: a signed millisecond delta to
an unsigned one; it fails exactly when the delta is negative. -/
def durationToStd (d : Int) : Option Int :=
  if 0 ≤ d then some d else none

/-- The timeout imposed on the downstream future:
`time_left.to_std().unwrap_or(StdDuration::from_secs(30))`
(validator.rs line 89); 30 seconds is 30000 milliseconds. -/
def timeoutFor (time_left : Int) : Int :=
  (durationToStd time_left).getD 30000

/-- The `OutgoingService::send_request` method of `ValidatorService`
(validator.rs lines 80-138).  The `copy_from_slice` into the fixed 32-byte
`condition` array (lines 81-82) panics unless the execution condition is
exactly 32 bytes, modelled by `none`.  The race between the downstream
future and the timeout timer is decided by comparing the downstream delay
with the imposed timeout; when the timer fires first, `into_inner` yields
`None` and the timed-out Reject is built, otherwise a downstream Reject
passes through `map_err` and a downstream Fulfill reaches the `and_then`
condition check. -/
def send_request (svc : ValidatorService σ) (nextImpl : OutgoingNext σ A)
    (now : Int) (request : OutgoingRequest A) :
    Option (IlpResult × List (OutgoingRequest A) × ValidatorService σ) :=
  if request.prepare.execution_condition.length = 32 then
    let condition := request.prepare.execution_condition
    let time_left := request.prepare.expires_at - now
    if time_left > 0 then
      let step := nextImpl svc.next request
      let raced : IlpResult :=
        if step.1.2 ≤ timeoutFor time_left then
          match step.1.1 with
          | .error reject => .error reject
          | .ok fulfill =>
              if sha256 fulfill.fulfillment = condition then .ok fulfill
              else .error ⟨.F09_INVALID_PEER_RESPONSE,
                           fulfillmentMismatchMessage, [], []⟩
        else
          .error ⟨.R00_TRANSFER_TIMED_OUT, [], [], []⟩
      some (raced, [request], { svc with next := step.2 })
    else
      some (.error ⟨.R00_TRANSFER_TIMED_OUT, [], [], []⟩, [], svc)
  else
    none

/-! ## Concrete fixtures (from the module's own tests) -/

/-- The 32-byte condition `SHA256(0x00 × 32)` used by the tests in
validator.rs. -/
def cond0 : List Nat :=
  [102, 104, 122, 173, 248, 98, 189, 119, 108, 143, 193, 139, 142, 159, 142,
   32, 8, 151, 20, 133, 110, 226, 51, 179, 144, 42, 89, 29, 13, 95, 41, 37]

/-- A test Prepare with the given expiry and condition `cond0`. -/
def testPrepare (expiry : Int) : Prepare :=
  { destination := [101], amount := 100, expires_at := expiry,
    execution_condition := cond0, data := [116] }

/-- The Fulfill with preimage `0x00 × 32` (matches `cond0`). -/
def fulfillZeros : Fulfill := ⟨List.replicate 32 0, [116]⟩

/-- The Fulfill with preimage `0x06 × 32` (does not match `cond0`). -/
def fulfillSixes : Fulfill := ⟨List.replicate 32 6, [116]⟩

/-- A downstream incoming handler that always fulfills with `fulfillZeros`. -/
def inNextFulfill : IncomingNext Unit Nat :=
  fun s _ => (Except.ok fulfillZeros, s)

/-- A downstream outgoing handler resolving with the given result after the
given delay. -/
def outNextConst (r : IlpResult) (delay : Int) : OutgoingNext Unit Nat :=
  fun s _ => ((r, delay), s)

/-! ## Helper lemmas -/

/-- A positive time delta converts successfully, so the imposed timeout is
the delta itself. -/
theorem timeoutForPosAux {t : Int} (h : 0 < t) : timeoutFor t = t := by
  simp [timeoutFor, durationToStd, h.le]

/-- The already-expired branch of `send_request`: a well-formed request with
no time left is rejected with `R00` without calling `next`. -/
theorem sendRequestExpiredAux (svc : ValidatorService σ)
    (nextImpl : OutgoingNext σ A) (now : Int) (request : OutgoingRequest A)
    (hlen : request.prepare.execution_condition.length = 32)
    (h : request.prepare.expires_at - now ≤ 0) :
    send_request svc nextImpl now request =
      some (Except.error ⟨.R00_TRANSFER_TIMED_OUT, [], [], []⟩, [], svc) := by
  simp only [send_request, if_pos hlen, gt_iff_lt, if_neg (not_lt.mpr h)]

/-! ## Claims -/

/-- C3: for every incoming request whose `expires_at` is strictly before the
current time, `handle_request` resolves to a Reject with code
`R00_TRANSFER_TIMED_OUT` and empty message, `triggered_by` and data, and the
downstream handler `next` is not invoked (the call trace is empty). -/
theorem handle_request_expired_rejects (svc : ValidatorService σ)
    (nextImpl : IncomingNext σ A) (now : Int) (request : IncomingRequest A)
    (h : request.prepare.expires_at < now) :
    handle_request svc nextImpl now request =
      (Except.error ⟨.R00_TRANSFER_TIMED_OUT, [], [], []⟩, [], svc) := by
  simp only [handle_request, ge_iff_le, if_neg (not_le.mpr h)]

/-- Witness for C3: an incoming request expiring at 5 handled at time 10 is
rejected with `R00` and `next` is not called. -/
theorem handle_request_expired_rejects_witness :
    handle_request (ValidatorService.incoming ()) inNextFulfill 10
      ⟨0, testPrepare 5⟩ =
      (Except.error ⟨.R00_TRANSFER_TIMED_OUT, [], [], []⟩, [],
       ValidatorService.incoming ()) :=
  handle_request_expired_rejects _ _ _ _ (by decide)

/-- C7: for every incoming request whose `expires_at` is at or after the
current time, `handle_request` invokes `next` exactly once with the
unmodified request and returns its result unchanged. -/
theorem handle_request_valid_delegates (svc : ValidatorService σ)
    (nextImpl : IncomingNext σ A) (now : Int) (request : IncomingRequest A)
    (h : now ≤ request.prepare.expires_at) :
    handle_request svc nextImpl now request =
      ((nextImpl svc.next request).1, [request],
       { svc with next := (nextImpl svc.next request).2 }) := by
  simp only [handle_request, ge_iff_le, if_pos h]

/-- Witness for C7: an incoming request expiring at 5 handled at time 0 is
passed to `next` once and its Fulfill comes back unchanged. -/
theorem handle_request_valid_delegates_witness :
    handle_request (ValidatorService.incoming ()) inNextFulfill 0
      ⟨0, testPrepare 5⟩ =
      (Except.ok fulfillZeros, [⟨0, testPrepare 5⟩],
       ValidatorService.incoming ()) :=
  handle_request_valid_delegates _ _ _ _ (by decide)

/-- C9: neither `handle_request` nor `send_request` records any per-request
information in the validator itself: after any call the resulting service
keeps `account_type` and differs from the input service at most in the state
that `next` itself produced. -/
theorem validator_keeps_no_state (svc : ValidatorService σ)
    (nextIn : IncomingNext σ A) (nextOut : OutgoingNext σ B)
    (nowIn nowOut : Int) (reqIn : IncomingRequest A)
    (reqOut : OutgoingRequest B) :
    (handle_request svc nextIn nowIn reqIn).2.2 =
      (if reqIn.prepare.expires_at ≥ nowIn then
        { svc with next := (nextIn svc.next reqIn).2 }
       else svc)
    ∧ (send_request svc nextOut nowOut reqOut).map (fun r => r.2.2) =
      (if reqOut.prepare.execution_condition.length = 32 then
        some (if reqOut.prepare.expires_at - nowOut > 0 then
          { svc with next := (nextOut svc.next reqOut).2 }
         else svc)
       else none) := by
  constructor
  · by_cases h : nowIn ≤ reqIn.prepare.expires_at <;>
      simp [handle_request, h]
  · by_cases h : reqOut.prepare.execution_condition.length = 32 <;>
      by_cases h2 : 0 < reqOut.prepare.expires_at - nowOut <;>
      simp [send_request, h, h2]

/-- C10: `send_request` is total exactly when the execution condition is 32
bytes long: the copy into the fixed 32-byte array happens before any expiry
check and panics (modelled by `none`) for any other length. -/
theorem send_request_total_iff_cond32 (svc : ValidatorService σ)
    (nextImpl : OutgoingNext σ A) (now : Int) (request : OutgoingRequest A) :
    (send_request svc nextImpl now request).isSome ↔
      request.prepare.execution_condition.length = 32 := by
  by_cases h : request.prepare.execution_condition.length = 32 <;>
    by_cases h2 : 0 < request.prepare.expires_at - now <;>
    simp [send_request, h, h2]

/-- C1: for every outgoing request where `next` resolves (before the
deadline) with a Fulfill whose fulfillment does not hash to the prepare's
execution condition, `send_request` resolves to a Reject with code
`F09_INVALID_PEER_RESPONSE`, message `"Fulfillment did not match condition"`,
and empty `triggered_by` and data. -/
theorem send_request_fulfill_mismatch (svc : ValidatorService σ)
    (nextImpl : OutgoingNext σ A) (now : Int) (request : OutgoingRequest A)
    (f : Fulfill) (delay : Int) (s : σ)
    (hlen : request.prepare.execution_condition.length = 32)
    (htime : 0 < request.prepare.expires_at - now)
    (hnext : nextImpl svc.next request = ((Except.ok f, delay), s))
    (hdelay : delay ≤ timeoutFor (request.prepare.expires_at - now))
    (hneq : sha256 f.fulfillment ≠ request.prepare.execution_condition) :
    send_request svc nextImpl now request =
      some (Except.error ⟨.F09_INVALID_PEER_RESPONSE,
                          fulfillmentMismatchMessage, [], []⟩,
            [request], { svc with next := s }) := by
  simp [send_request, hlen, htime, hnext, hdelay, hneq]

/-- Witness for C1: the downstream fulfills with preimage `0x06 × 32`, which
does not hash to `cond0`, so the validator answers with the `F09` Reject. -/
theorem send_request_fulfill_mismatch_witness :
    send_request (ValidatorService.outgoing ())
      (outNextConst (Except.ok fulfillSixes) 0) 0 ⟨0, 1, testPrepare 1000⟩ =
      some (Except.error ⟨.F09_INVALID_PEER_RESPONSE,
                          fulfillmentMismatchMessage, [], []⟩,
            [⟨0, 1, testPrepare 1000⟩], ValidatorService.outgoing ()) :=
  send_request_fulfill_mismatch _ _ _ _ _ _ _ (by decide) (by decide) rfl
    (by decide) (by decide)

/-- C2: for every outgoing request with `expires_at` strictly in the future
where `next` resolves before the deadline with a Fulfill whose fulfillment
hashes to the prepare's execution condition, `send_request` resolves to that
same Fulfill unchanged. -/
theorem send_request_fulfill_match (svc : ValidatorService σ)
    (nextImpl : OutgoingNext σ A) (now : Int) (request : OutgoingRequest A)
    (f : Fulfill) (delay : Int) (s : σ)
    (hlen : request.prepare.execution_condition.length = 32)
    (htime : 0 < request.prepare.expires_at - now)
    (hnext : nextImpl svc.next request = ((Except.ok f, delay), s))
    (hdelay : delay ≤ timeoutFor (request.prepare.expires_at - now))
    (heq : sha256 f.fulfillment = request.prepare.execution_condition) :
    send_request svc nextImpl now request =
      some (Except.ok f, [request], { svc with next := s }) := by
  simp [send_request, hlen, htime, hnext, hdelay, heq]

/-- Witness for C2: the downstream fulfills with preimage `0x00 × 32`, whose
SHA-256 digest is exactly `cond0`, so the Fulfill is passed through. -/
theorem send_request_fulfill_match_witness :
    send_request (ValidatorService.outgoing ())
      (outNextConst (Except.ok fulfillZeros) 0) 0 ⟨0, 1, testPrepare 1000⟩ =
      some (Except.ok fulfillZeros, [⟨0, 1, testPrepare 1000⟩],
            ValidatorService.outgoing ()) :=
  send_request_fulfill_match _ _ _ _ _ _ _ (by decide) (by decide) rfl
    (by decide) (by decide)

/-- C4: for every outgoing request whose `expires_at` minus the current time
is at most zero, `send_request` resolves immediately to a Reject with code
`R00_TRANSFER_TIMED_OUT` and all other fields empty, and `next` is not
invoked (the call trace is empty). -/
theorem send_request_expired_rejects (svc : ValidatorService σ)
    (nextImpl : OutgoingNext σ A) (now : Int) (request : OutgoingRequest A)
    (hlen : request.prepare.execution_condition.length = 32)
    (h : request.prepare.expires_at - now ≤ 0) :
    send_request svc nextImpl now request =
      some (Except.error ⟨.R00_TRANSFER_TIMED_OUT, [], [], []⟩, [], svc) :=
  sendRequestExpiredAux svc nextImpl now request hlen h

/-- Witness for C4: an outgoing request expiring at 5 sent at time 10 is
rejected with `R00` and `next` is not called. -/
theorem send_request_expired_rejects_witness :
    send_request (ValidatorService.outgoing ())
      (outNextConst (Except.ok fulfillZeros) 0) 10 ⟨0, 1, testPrepare 5⟩ =
      some (Except.error ⟨.R00_TRANSFER_TIMED_OUT, [], [], []⟩, [],
            ValidatorService.outgoing ()) :=
  send_request_expired_rejects _ _ _ _ (by decide) (by decide)

/-- C5: the outgoing validator never returns a Fulfill after `expires_at`:
if the downstream takes strictly longer than `time_left` to resolve, the
timer fires first and `send_request` resolves to a Reject with code
`R00_TRANSFER_TIMED_OUT` and empty fields, whatever the downstream later
produces (the downstream was still invoked, so its state change stands). -/
theorem send_request_timer_fires (svc : ValidatorService σ)
    (nextImpl : OutgoingNext σ A) (now : Int) (request : OutgoingRequest A)
    (r : IlpResult) (delay : Int) (s : σ)
    (hlen : request.prepare.execution_condition.length = 32)
    (htime : 0 < request.prepare.expires_at - now)
    (hnext : nextImpl svc.next request = ((r, delay), s))
    (hdelay : request.prepare.expires_at - now < delay) :
    send_request svc nextImpl now request =
      some (Except.error ⟨.R00_TRANSFER_TIMED_OUT, [], [], []⟩, [request],
            { svc with next := s }) := by
  have ht := timeoutForPosAux htime
  simp [send_request, hlen, htime, hnext, ht, not_le.mpr hdelay]

/-- Witness for C5: with 1000 ms left and a downstream that takes 2000 ms to
fulfill, the timer fires first and the caller gets the `R00` Reject. -/
theorem send_request_timer_fires_witness :
    send_request (ValidatorService.outgoing ())
      (outNextConst (Except.ok fulfillZeros) 2000) 0 ⟨0, 1, testPrepare 1000⟩ =
      some (Except.error ⟨.R00_TRANSFER_TIMED_OUT, [], [], []⟩,
            [⟨0, 1, testPrepare 1000⟩], ValidatorService.outgoing ()) :=
  send_request_timer_fires _ _ _ _ _ _ _ (by decide) (by decide) rfl
    (by decide)

/-- C6: for every admitted outgoing request (`time_left > 0`) the timeout
imposed on the downstream future is exactly `time_left`; the 30-second bound
appears only when the signed-to-unsigned conversion fails, and the expired
branch (`time_left ≤ 0`) is taken first, so the fallback is never applied to
an expired packet. -/
theorem send_request_timeout_is_time_left (σ A : Type) :
    (∀ t : Int, 0 < t → timeoutFor t = t)
    ∧ (∀ t : Int, durationToStd t = none → timeoutFor t = 30000)
    ∧ ∀ (svc : ValidatorService σ) (nextImpl : OutgoingNext σ A) (now : Int)
        (request : OutgoingRequest A),
        request.prepare.execution_condition.length = 32 →
        request.prepare.expires_at - now ≤ 0 →
        send_request svc nextImpl now request =
          some (Except.error ⟨.R00_TRANSFER_TIMED_OUT, [], [], []⟩, [], svc) :=
  ⟨fun _ ht => timeoutForPosAux ht,
   fun t ht => by simp [timeoutFor, ht],
   fun svc nextImpl now request hlen h =>
     sendRequestExpiredAux svc nextImpl now request hlen h⟩

/-- Witness for C6: a positive 5 ms `time_left` is used as the timeout
verbatim, a failed conversion falls back to 30000 ms, and an expired packet
is rejected before any timeout is imposed. -/
theorem send_request_timeout_is_time_left_witness :
    timeoutFor 5 = 5 ∧ timeoutFor (-3) = 30000 ∧
    send_request (ValidatorService.outgoing ())
      (outNextConst (Except.ok fulfillZeros) 0) 10 ⟨0, 1, testPrepare 5⟩ =
      some (Except.error ⟨.R00_TRANSFER_TIMED_OUT, [], [], []⟩, [],
            ValidatorService.outgoing ()) :=
  ⟨(send_request_timeout_is_time_left Unit Nat).1 5 (by decide),
   (send_request_timeout_is_time_left Unit Nat).2.1 (-3) (by decide),
   (send_request_timeout_is_time_left Unit Nat).2.2 _ _ _ _ (by decide)
     (by decide)⟩

/-- C8: for every admitted outgoing request, a Reject produced by `next`
before the deadline is returned verbatim, with no field modified. -/
theorem send_request_reject_passthrough (svc : ValidatorService σ)
    (nextImpl : OutgoingNext σ A) (now : Int) (request : OutgoingRequest A)
    (reject : Reject) (delay : Int) (s : σ)
    (hlen : request.prepare.execution_condition.length = 32)
    (htime : 0 < request.prepare.expires_at - now)
    (hnext : nextImpl svc.next request = ((Except.error reject, delay), s))
    (hdelay : delay ≤ timeoutFor (request.prepare.expires_at - now)) :
    send_request svc nextImpl now request =
      some (Except.error reject, [request], { svc with next := s }) := by
  simp [send_request, hlen, htime, hnext, hdelay]

/-- Witness for C8: a downstream Reject with a distinctive shape comes back
through the validator untouched. -/
theorem send_request_reject_passthrough_witness :
    send_request (ValidatorService.outgoing ())
      (outNextConst (Except.error ⟨.F09_INVALID_PEER_RESPONSE, [1, 2], [3],
                                   [4]⟩) 0) 0 ⟨0, 1, testPrepare 1000⟩ =
      some (Except.error ⟨.F09_INVALID_PEER_RESPONSE, [1, 2], [3], [4]⟩,
            [⟨0, 1, testPrepare 1000⟩], ValidatorService.outgoing ()) :=
  send_request_reject_passthrough _ _ _ _ _ _ _ (by decide) (by decide) rfl
    (by decide)

end Interledger
